import Mathlib

/-!
Verification of the pcap2csv pipeline (src/pcap2csv.py).

The embedding models the script over byte lists. A packet record is a
`List Nat` of bytes (each 0-255, as produced by the capture reader). The
pyshark summary of a packet is a `Summary` structure. Python exceptions
that the script does not catch are modelled as `Except`/error results;
the only exception the script catches is `StopIteration` around
`pcap_pyshark.next_packet()` (lines 117-124), which it turns into a
silent `break`.

The header decoding in the script is delegated to the scapy library
(`Ether(pkt_sc)[IP]`, `ip_pkt_sc[UDP]`, `ip_pkt_sc[TCP]`); the
definitions below model the documented behaviour of those calls on the
standard Ethernet / IPv4 / UDP / TCP layouts: a 14-byte Ethernet header
whose last two bytes are the ethertype, an IPv4 header whose length is
the low nibble of its first byte times 4, a fixed 8-byte UDP header,
and a TCP header whose length is the high nibble of its byte 12 (the
data offset) times 4. A layer lookup that fails in scapy raises
`IndexError` (layer not found); the script does not catch it.
-/

namespace Pcap2Csv

/-- Lower-case hexadecimal digit for a nibble value, as produced by
Python `bytes.hex()`. -/
def hexDigit (n : Nat) : Char :=
  if n < 10 then Char.ofNat (48 + n) else Char.ofNat (87 + n)

/-- Two lower-case hex digits of one byte (bytes are 0-255; the
reductions mirror taking the high and low nibble). -/
def byteHex (b : Nat) : String :=
  String.mk [hexDigit (b % 256 / 16), hexDigit (b % 16)]

/-- Python `bytes.hex()`: concatenation of the two-digit groups. -/
def hexOfBytes : List Nat → String
  | [] => ""
  | b :: bs => byteHex b ++ hexOfBytes bs

/-- Character class of the output of `hexOfBytes`: a decimal digit or a
lower-case letter a-f. -/
def isLowerHexDigit (c : Char) : Bool :=
  (48 ≤ c.toNat && c.toNat ≤ 57) || (97 ≤ c.toNat && c.toNat ≤ 102)

/-- One pyshark summary object, as used by `render_csv_row`
(fields `no`, `time`, `protocol`, `info`, `source`, `destination`,
`length` of the packet summary). -/
structure Summary where
  no : Nat
  time : String
  protocol : String
  info : String
  source : String
  destination : String
  length : String
deriving DecidableEq, Repr

/-- Uncaught Python exceptions that `render_csv_row` can raise:
`layerNotFound` is the scapy `IndexError` from a failed layer lookup
such as `Ether(pkt_sc)[IP]`; `unboundLocal` is the `UnboundLocalError`
raised at line 82/84 when `l4_sport`/`l4_dport` were never assigned
(the `else` branch at lines 56-59 assigns neither). -/
inductive RenderError where
  | layerNotFound
  | unboundLocal
deriving DecidableEq, Repr

/-- Ethertype of a frame: the big-endian 16-bit field at bytes 12-13. -/
def etherType (pkt : List Nat) : Nat :=
  pkt.getD 12 0 * 256 + pkt.getD 13 0

/-- Models `Ether(pkt_sc)[IP]`: the IPv4 layer exists when the frame
holds a full Ethernet header, the ethertype is 0x0800, and at least a
minimal 20-byte IPv4 header follows; its bytes are the frame after the
14-byte Ethernet header. Otherwise the lookup raises (none). -/
def etherExtractIP (pkt : List Nat) : Option (List Nat) :=
  if 34 ≤ pkt.length ∧ etherType pkt = 2048 then some (pkt.drop 14) else none

/-- IPv4 header length nibble (low nibble of byte 0), in 32-bit words. -/
def ipIhl (ip : List Nat) : Nat := ip.getD 0 0 % 16

/-- IPv4 protocol field (byte 9). -/
def ipProto (ip : List Nat) : Nat := ip.getD 9 0

/-- The transport segment: the IPv4 payload starting after the
variable-length IPv4 header. -/
def ipSegment (ip : List Nat) : List Nat := ip.drop (ipIhl ip * 4)

/-- TCP data offset: the high nibble of byte 12 of the segment, in
32-bit words. -/
def tcpDataOfs (seg : List Nat) : Nat := seg.getD 12 0 % 256 / 16

/-- Models `bytes(tcp_pkt_sc.payload)`: the segment bytes after the
variable-length TCP header, located by the data-offset field. -/
def tcpPayload (seg : List Nat) : List Nat := seg.drop (tcpDataOfs seg * 4)

/-- Models `bytes(udp_pkt_sc.payload)`: bytes after the fixed 8-byte
UDP header. -/
def udpPayload (seg : List Nat) : List Nat := seg.drop 8

/-- Big-endian 16-bit port field of a segment at a given offset. -/
def portOf (seg : List Nat) (off : Nat) : Nat :=
  seg.getD off 0 * 256 + seg.getD (off + 1) 0

/-- Tail of a rendered row after the frame-number field: fields 1-10 of
the format string at line 62, with the literal separators of
`render_csv_row` (bars between columns, the transport name
parenthesised after the protocol, colons between address and port). -/
def restOfRow (s : Summary) (l4name sport dport : String)
    (payload : List Nat) : String :=
  s.time ++ "|" ++ s.protocol ++ "(" ++ l4name ++ ")" ++ "|" ++ s.info ++
    "|" ++ s.source ++ ":" ++ sport ++ "|" ++ s.destination ++ ":" ++ dport ++
    "|" ++ s.length ++ "|" ++ hexOfBytes payload

/-- One full rendered row: frame number, then the rest. -/
def formatRow (s : Summary) (l4name : String) (sport dport : Nat)
    (payload : List Nat) : String :=
  toString s.no ++ "|" ++ restOfRow s l4name (toString sport) (toString dport) payload

/-- Embedding of `render_csv_row` (lines 32-87). `pkt_sh` is the
pyshark summary, `pkt_sc` the raw frame bytes. Returns the line written
to the csv file, or the uncaught exception: `layerNotFound` when the
frame has no IPv4 layer or the transport layer lookup fails (a scapy
`IndexError`), `unboundLocal` when the protocol is neither 17 nor 6 so
that `l4_sport` is referenced at line 82 without ever being assigned. -/
def render_csv_row (pkt_sh : Summary) (pkt_sc : List Nat) :
    Except RenderError String :=
  match etherExtractIP pkt_sc with
  | none => .error .layerNotFound
  | some ip =>
    if ipProto ip = 17 then
      if 8 ≤ (ipSegment ip).length then
        .ok (formatRow pkt_sh "UDP" (portOf (ipSegment ip) 0)
          (portOf (ipSegment ip) 2) (udpPayload (ipSegment ip)))
      else .error .layerNotFound
    else if ipProto ip = 6 then
      if 20 ≤ (ipSegment ip).length then
        .ok (formatRow pkt_sh "TCP" (portOf (ipSegment ip) 0)
          (portOf (ipSegment ip) 2) (tcpPayload (ipSegment ip)))
      else .error .layerNotFound
    else
      .error .unboundLocal

/-- Outcome of the processing loop of `pcap2csv` (lines 110-126):
either the loop completes and the final count line is printed
(`ok rows printed`), or an uncaught exception ends the run with the
rows already written remaining in the file and nothing printed
(`err rows e`). -/
inductive RunResult where
  | ok (rows : List String) (printed : Nat)
  | err (rows : List String) (e : RenderError)
deriving DecidableEq, Repr

/-- True when the run completed without an uncaught exception. -/
def RunResult.isOk : RunResult → Bool
  | .ok _ _ => true
  | .err _ _ => false

/-- The count printed by the final line, when the run completes. -/
def RunResult.printedCount : RunResult → Option Nat
  | .ok _ n => some n
  | .err _ _ => none

/-- The rows present in the output file at the end of the run. -/
def RunResult.rows : RunResult → List String
  | .ok rows _ => rows
  | .err rows _ => rows

/-- Embedding of the loop at lines 116-124. For each capture record,
`next_packet()` is attempted: if the summaries are exhausted the
`StopIteration` handler breaks out silently and the count is printed;
otherwise `frame_num` is incremented and `render_csv_row` runs, whose
exceptions are NOT caught (only `StopIteration` is) and abort the run. -/
def runLoop : List (List Nat) → List Summary → RunResult
  | [], _ => .ok [] 0
  | _ :: _, [] => .ok [] 0
  | r :: rs, s :: ss =>
    match render_csv_row s r with
    | .ok row =>
      match runLoop rs ss with
      | .ok rows n => .ok (row :: rows) (n + 1)
      | .err rows e => .err (row :: rows) e
    | .error e => .err [] e

/-- Embedding of `pcap2csv` (lines 90-126): the records come from
`RawPcapReader(in_pcap)`, the summaries from the pyshark capture of the
same file; the loop pairs them positionally. -/
def pcap2csv (records : List (List Nat)) (summaries : List Summary) :
    RunResult :=
  runLoop records summaries

/-- The final line printed to standard output (line 126). -/
def finalLine (n : Nat) : String := toString n ++ " packets read"

/-- The rows a completed run writes: one per record-summary pair whose
render succeeds, stopping at the first failure or exhaustion. -/
def rowsOf : List (List Nat) → List Summary → List String
  | [], _ => []
  | _ :: _, [] => []
  | r :: rs, s :: ss =>
    match render_csv_row s r with
    | .ok row => row :: rowsOf rs ss
    | .error _ => []

/-- Decidable check that every paired record renders successfully. -/
def rendersOk : List (List Nat) → List Summary → Bool
  | [], _ => true
  | _ :: _, [] => true
  | r :: rs, s :: ss =>
    match render_csv_row s r with
    | .ok _ => rendersOk rs ss
    | .error _ => false

/-- The pre-flight state `main` (lines 141-156) consults: whether the
input pcap path exists and whether the output csv path exists. -/
structure FS where
  inputExists : Bool
  outputExists : Bool
deriving DecidableEq, Repr

/-- Outcome of `main`: `earlyExit` is `sys.exit(-1)` from one of the
pre-flight checks (non-zero status, `pcap2csv` never called, output
file never opened); `crashed` is an uncaught exception out of
`pcap2csv`; `completed` is a normal return (process exit status 0). -/
inductive MainOutcome where
  | earlyExit
  | crashed (rowsWritten : List String) (e : RenderError)
  | completed (rows : List String) (printed : Nat)
deriving DecidableEq, Repr

/-- Whether `main` reaches the call to `pcap2csv`, which opens (and
hence creates) the output file at line 111. -/
def mainOpensOutput (fs : FS) : Bool := fs.inputExists && !fs.outputExists

/-- Embedding of `main` (lines 141-156): exit with status -1 when the
input pcap is missing or the output csv already exists, otherwise run
`pcap2csv`. -/
def main (fs : FS) (records : List (List Nat)) (summaries : List Summary) :
    MainOutcome :=
  if !fs.inputExists then .earlyExit
  else if fs.outputExists then .earlyExit
  else
    match pcap2csv records summaries with
    | .ok rows n => .completed rows n
    | .err rows e => .crashed rows e

/-- Concrete example summary, numbered. -/
def exS (n : Nat) : Summary :=
  ⟨n, "0.000", "DNS", "query", "10.0.0.1", "10.0.0.2", "64"⟩

/-- Concrete Ethernet+IPv4+UDP frame: 14-byte Ethernet header with
ethertype 0x0800, 20-byte IPv4 header with protocol 17, 8-byte UDP
header with ports 53 and 68, and payload bytes 0xab 0xcd. -/
def exUdp : List Nat :=
  [1, 2, 3, 4, 5, 6, 7, 8, 9, 10, 11, 12, 8, 0] ++
  [69, 0, 0, 30, 0, 0, 0, 0, 64, 17, 0, 0, 10, 0, 0, 1, 10, 0, 0, 2] ++
  [0, 53, 0, 68, 0, 10, 0, 0] ++
  [171, 205]

/-- Concrete Ethernet+IPv4+TCP frame with TCP options: 20-byte IPv4
header with protocol 6, TCP header with data offset 6 (so 24 bytes:
20 fixed plus 4 option bytes 1,1,1,1), ports 80 and 443, payload
bytes 0x11 0x22. -/
def exTcp : List Nat :=
  [1, 2, 3, 4, 5, 6, 7, 8, 9, 10, 11, 12, 8, 0] ++
  [69, 0, 0, 48, 0, 0, 0, 0, 64, 6, 0, 0, 10, 0, 0, 1, 10, 0, 0, 2] ++
  [0, 80, 1, 187, 0, 0, 0, 0, 0, 0, 0, 0, 96, 0, 0, 0, 0, 0, 0, 0] ++
  [1, 1, 1, 1] ++
  [17, 34]

/-- Concrete Ethernet+IPv4+ICMP frame: IPv4 protocol 1, neither UDP
nor TCP. -/
def exIcmp : List Nat :=
  [1, 2, 3, 4, 5, 6, 7, 8, 9, 10, 11, 12, 8, 0] ++
  [69, 0, 0, 28, 0, 0, 0, 0, 64, 1, 0, 0, 10, 0, 0, 1, 10, 0, 0, 2] ++
  [8, 0, 0, 0, 0, 0, 0, 0]

/-- Concrete ARP frame: ethertype 0x0806, no IPv4 layer. -/
def exArp : List Nat :=
  [1, 2, 3, 4, 5, 6, 7, 8, 9, 10, 11, 12, 8, 6] ++
  List.replicate 28 0

end Pcap2Csv

namespace Pcap2Csv

/-- Indexing into a dropped list shifts the index. -/
theorem getD_drop (l : List Nat) (n i d : Nat) :
    (l.drop n).getD i d = l.getD (n + i) d := by
  induction n generalizing l with
  | zero => simp
  | succ n ih =>
    cases l with
    | nil => simp
    | cons a l =>
      have h : n + 1 + i = (n + i) + 1 := by omega
      rw [List.drop_succ_cons, h, List.getD_cons_succ]
      exact ih l

/-- When every paired record renders, the loop completes, the printed
count is the number of consumed pairs, and the rows are `rowsOf`. -/
theorem runLoop_ok_of_rendersOk (rs : List (List Nat)) (ss : List Summary)
    (hok : rendersOk rs ss = true) :
    runLoop rs ss = .ok (rowsOf rs ss) (min rs.length ss.length) := by
  induction rs generalizing ss with
  | nil => simp [runLoop, rowsOf]
  | cons r rs ih =>
    cases ss with
    | nil => simp [runLoop, rowsOf]
    | cons s ss =>
      cases h : render_csv_row s r with
      | ok row =>
        have hok2 : rendersOk rs ss = true := by
          simpa [rendersOk, h] using hok
        simp [runLoop, rowsOf, h, ih ss hok2, Nat.succ_min_succ]
      | error e =>
        exfalso
        simpa [rendersOk, h] using hok

/-- Length of the emitted rows when every paired record renders. -/
theorem rowsOf_length (rs : List (List Nat)) (ss : List Summary)
    (hok : rendersOk rs ss = true) :
    (rowsOf rs ss).length = min rs.length ss.length := by
  induction rs generalizing ss with
  | nil => simp [rowsOf]
  | cons r rs ih =>
    cases ss with
    | nil => simp [rowsOf]
    | cons s ss =>
      cases h : render_csv_row s r with
      | ok row =>
        have hok2 : rendersOk rs ss = true := by
          simpa [rendersOk, h] using hok
        simp [rowsOf, h, ih ss hok2, Nat.succ_min_succ]
      | error e =>
        exfalso
        simpa [rendersOk, h] using hok

/-- Summaries beyond the number of records are never consumed. -/
theorem runLoop_append_extra (rs : List (List Nat)) (ss extra : List Summary)
    (hlen : rs.length ≤ ss.length) :
    runLoop rs (ss ++ extra) = runLoop rs ss := by
  induction rs generalizing ss with
  | nil => simp [runLoop]
  | cons r rs ih =>
    cases ss with
    | nil => simp at hlen
    | cons s ss =>
      have hlen2 : rs.length ≤ ss.length := by simpa using hlen
      cases h : render_csv_row s r with
      | ok row => simp [runLoop, h, ih ss hlen2]
      | error e => simp [runLoop, h]

/-- An uncaught render exception aborts the loop at the failing record:
the rows of the prefix remain, the failing and later records contribute
nothing, and the count line is never printed. -/
theorem runLoop_append_err (pre : List (List Nat)) (ss1 : List Summary)
    (bad : List Nat) (rest : List (List Nat)) (s : Summary)
    (ss2 : List Summary) (e : RenderError)
    (hok : rendersOk pre ss1 = true) (hlen : pre.length = ss1.length)
    (hbad : render_csv_row s bad = .error e) :
    runLoop (pre ++ bad :: rest) (ss1 ++ s :: ss2) =
      .err (rowsOf pre ss1) e := by
  induction pre generalizing ss1 with
  | nil =>
    cases ss1 with
    | nil => simp [runLoop, rowsOf, hbad]
    | cons t ss1 => simp at hlen
  | cons r pre ih =>
    cases ss1 with
    | nil => simp at hlen
    | cons t ss1 =>
      cases h : render_csv_row t r with
      | ok row =>
        have hok2 : rendersOk pre ss1 = true := by
          simpa [rendersOk, h] using hok
        have hlen2 : pre.length = ss1.length := by simpa using hlen
        simp [runLoop, rowsOf, h, ih ss1 hok2 hlen2]
      | error e2 =>
        exfalso
        simpa [rendersOk, h] using hok

/-- A successful render is one of the UDP or TCP branches: the row is a
`formatRow` with transport name UDP or TCP and numeric ports. -/
theorem render_ok_cases (s : Summary) (pkt : List Nat) (row : String)
    (h : render_csv_row s pkt = .ok row) :
    ∃ kind sport dport payload, (kind = "UDP" ∨ kind = "TCP") ∧
      row = formatRow s kind sport dport payload := by
  simp only [render_csv_row] at h
  split at h
  · exact absurd h (by simp)
  · rename_i ip heq
    split at h
    · split at h
      · exact ⟨"UDP", portOf (ipSegment ip) 0, portOf (ipSegment ip) 2,
          udpPayload (ipSegment ip), Or.inl rfl, (Except.ok.inj h).symm⟩
      · exact absurd h (by simp)
    · split at h
      · split at h
        · exact ⟨"TCP", portOf (ipSegment ip) 0, portOf (ipSegment ip) 2,
            tcpPayload (ipSegment ip), Or.inr rfl, (Except.ok.inj h).symm⟩
        · exact absurd h (by simp)
      · exact absurd h (by simp)

/-- Every successfully rendered row begins with the frame number of the
paired summary followed by a bar. -/
theorem render_row_shape (s : Summary) (pkt : List Nat) (row : String)
    (h : render_csv_row s pkt = .ok row) :
    ∃ t, row = toString s.no ++ "|" ++ t := by
  obtain ⟨kind, sport, dport, payload, hk, hrow⟩ := render_ok_cases s pkt row h
  refine ⟨restOfRow s kind (toString sport) (toString dport) payload, ?_⟩
  rw [hrow]
  rfl

/-- Bar-join of an eight-element list, unfolded. -/
theorem intercalate_eight (a b c d e f g h : String) :
    String.intercalate "|" [a, b, c, d, e, f, g, h] =
      a ++ "|" ++ b ++ "|" ++ c ++ "|" ++ d ++ "|" ++ e ++ "|" ++ f ++ "|" ++
        g ++ "|" ++ h := by
  simp [String.intercalate, String.intercalate.go, String.append_assoc]

/-- A rendered row is the bar-join of its eight columns: the frame
number, the timestamp, the protocol with the parenthesised transport
name, the info text, the colon-joined source address and port, the
colon-joined destination address and port, the length, and the hex
payload. -/
theorem formatRow_intercalate (s : Summary) (kind : String)
    (sport dport : Nat) (payload : List Nat) :
    formatRow s kind sport dport payload =
      String.intercalate "|"
        [toString s.no, s.time, s.protocol ++ "(" ++ kind ++ ")", s.info,
         s.source ++ ":" ++ toString sport,
         s.destination ++ ":" ++ toString dport, s.length,
         hexOfBytes payload] := by
  rw [intercalate_eight]
  simp [formatRow, restOfRow, String.append_assoc]

/-- Each nibble renders as a digit or a lower-case letter a-f. -/
theorem hexDigit_lower (n : Nat) (h : n < 16) :
    isLowerHexDigit (hexDigit n) = true := by
  interval_cases n <;> decide

/-- Both characters of a byte's hex rendering are lower-case hex. -/
theorem byteHex_lower (b : Nat) :
    ∀ c ∈ (byteHex b).data, isLowerHexDigit c = true := by
  intro c hc
  have h1 : b % 256 / 16 < 16 := by
    have : b % 256 < 256 := Nat.mod_lt _ (by norm_num)
    omega
  have h2 : b % 16 < 16 := Nat.mod_lt _ (by norm_num)
  simp [byteHex] at hc
  rcases hc with hc | hc <;> rw [hc]
  · exact hexDigit_lower _ h1
  · exact hexDigit_lower _ h2

/-- Every character of the hex payload rendering is lower-case hex. -/
theorem hexOfBytes_lower (bs : List Nat) :
    ∀ c ∈ (hexOfBytes bs).data, isLowerHexDigit c = true := by
  induction bs with
  | nil => intro c hc; simp [hexOfBytes] at hc
  | cons b bs ih =>
    intro c hc
    rw [hexOfBytes, String.data_append] at hc
    rcases List.mem_append.mp hc with hc | hc
    · exact byteHex_lower b c hc
    · exact ih c hc

/-- Rows are emitted in order with the frame number of the paired
summary leading each row; with summaries numbered consecutively from
`b + 1`, row `i` starts with the number `b + i + 1`. -/
theorem rowsOf_frame_field (b : Nat) (rs : List (List Nat))
    (ss : List Summary) (hok : rendersOk rs ss = true)
    (hlen : rs.length ≤ ss.length)
    (hno : ∀ i (h : i < ss.length), (ss.get ⟨i, h⟩).no = b + i + 1) :
    ∀ i, i < rs.length →
      ∃ t, (rowsOf rs ss)[i]? = some (toString (b + i + 1) ++ "|" ++ t) := by
  induction rs generalizing ss b with
  | nil => intro i hi; simp at hi
  | cons r rs ih =>
    cases ss with
    | nil => simp at hlen
    | cons s ss =>
      intro i hi
      cases h : render_csv_row s r with
      | error e =>
        exfalso
        simpa [rendersOk, h] using hok
      | ok row =>
        have hok2 : rendersOk rs ss = true := by
          simpa [rendersOk, h] using hok
        have hlen2 : rs.length ≤ ss.length := by simpa using hlen
        cases i with
        | zero =>
          obtain ⟨t, ht⟩ := render_row_shape s r row h
          have hs : s.no = b + 1 := by
            have h0 := hno 0 (by simp)
            simpa using h0
          refine ⟨t, ?_⟩
          simp [rowsOf, h, ht, hs]
        | succ i =>
          have hno2 : ∀ j (hj : j < ss.length),
              (ss.get ⟨j, hj⟩).no = (b + 1) + j + 1 := by
            intro j hj
            have hj2 : j + 1 < (s :: ss).length := by
              simpa using Nat.succ_lt_succ hj
            have h3 := hno (j + 1) hj2
            simp [List.get_eq_getElem] at h3 ⊢
            omega
          obtain ⟨t, ht⟩ := ih (b + 1) ss hok2 hlen2 hno2 i (by simpa using hi)
          refine ⟨t, ?_⟩
          have harith : b + (i + 1) + 1 = (b + 1) + i + 1 := by omega
          rw [harith]
          simpa [rowsOf, h] using ht

/-- C1 counterexample: a capture of two well-formed UDP records paired
with a provider holding a single summary. The claim says the run fails
with a synchronization error before processing the unmatched tail; in
fact the `StopIteration` handler breaks silently and the run completes
with one row and the printed count 1 — fewer rows than packets and no
error. -/
theorem c1_counterexample :
    [exUdp, exUdp].length = 2 ∧ [exS 1].length = 1 ∧
    pcap2csv [exUdp, exUdp] [exS 1] =
      RunResult.ok ["1|0.000|DNS(UDP)|query|10.0.0.1:53|10.0.0.2:68|64|abcd"]
        1 := by
  refine ⟨rfl, rfl, ?_⟩
  rfl

/-- C1 amended: when the external summary provider under-produces, no
error is raised: the loop silently stops once the provider is
exhausted, the run completes normally, emits exactly one row per
consumed summary, and prints that smaller count. -/
theorem c1_under_produce_silent (records : List (List Nat))
    (summaries : List Summary)
    (hok : rendersOk records summaries = true)
    (hlen : summaries.length < records.length) :
    pcap2csv records summaries =
      RunResult.ok (rowsOf records summaries) summaries.length ∧
    (rowsOf records summaries).length = summaries.length := by
  have hmin : min records.length summaries.length = summaries.length :=
    Nat.min_eq_right (Nat.le_of_lt hlen)
  constructor
  · rw [pcap2csv, runLoop_ok_of_rendersOk records summaries hok, hmin]
  · rw [rowsOf_length records summaries hok, hmin]

/-- C1 witness for the amended statement: two records, one summary. -/
theorem c1_under_produce_silent_witness :
    pcap2csv [exUdp, exUdp] [exS 1] =
      RunResult.ok (rowsOf [exUdp, exUdp] [exS 1]) 1 ∧
    (rowsOf [exUdp, exUdp] [exS 1]).length = 1 :=
  c1_under_produce_silent [exUdp, exUdp] [exS 1] (by decide) (by decide)

/-- C2: for a record whose IPv4 protocol is neither 17 nor 6 (here 1,
ICMP), the claim says a row is still emitted with a zero-byte payload,
the Unknown marker and empty port fields. The code instead raises
`UnboundLocalError`: the `else` branch at lines 56-59 assigns
`l4_payload_bytes` and `l4_proto_name` but never `l4_sport` or
`l4_dport`, so line 82 references an unassigned local and the whole
run crashes; no row is emitted. -/
theorem c2_unknown_transport_crashes :
    ipProto (exIcmp.drop 14) = 1 ∧
    render_csv_row (exS 1) exIcmp =
      Except.error RenderError.unboundLocal ∧
    pcap2csv [exIcmp] [exS 1] =
      RunResult.err [] RenderError.unboundLocal := by
  exact ⟨rfl, rfl, rfl⟩

/-- C3 counterexample: a capture whose first record is an ARP frame
(ethertype 0x0806, no IPv4 layer) followed by a well-formed UDP record,
with two summaries. The claim says the bad record is skipped and
processing continues with the next record; in fact the scapy layer
lookup raises an uncaught `IndexError`, the run aborts with no rows,
and the following valid record is never processed even though it would
have rendered. -/
theorem c3_counterexample :
    pcap2csv [exArp, exUdp] [exS 1, exS 2] =
      RunResult.err [] RenderError.layerNotFound ∧
    rendersOk [exUdp] [exS 2] = true := by
  exact ⟨rfl, rfl⟩

/-- C3 amended: a record that is not Ethernet-framed IPv4 raises an
uncaught layer-lookup error that aborts the whole run at that record:
the record does not appear in the output, but neither do any later
records — the output retains exactly the rows of the records before
the bad one, and the count line is never printed. -/
theorem c3_non_ipv4_aborts (pre : List (List Nat)) (ss1 : List Summary)
    (bad : List Nat) (rest : List (List Nat)) (s : Summary)
    (ss2 : List Summary)
    (hok : rendersOk pre ss1 = true) (hlen : pre.length = ss1.length)
    (hbad : etherExtractIP bad = none) :
    pcap2csv (pre ++ bad :: rest) (ss1 ++ s :: ss2) =
      RunResult.err (rowsOf pre ss1) RenderError.layerNotFound ∧
    (rowsOf pre ss1).length = pre.length := by
  have hb : render_csv_row s bad = .error .layerNotFound := by
    simp [render_csv_row, hbad]
  constructor
  · exact runLoop_append_err pre ss1 bad rest s ss2 _ hok hlen hb
  · rw [rowsOf_length pre ss1 hok, hlen, Nat.min_self]

/-- C3 witness for the amended statement: one good record before the
ARP record, one record after it. -/
theorem c3_non_ipv4_aborts_witness :
    pcap2csv ([exUdp] ++ exArp :: [exUdp]) ([exS 1] ++ exS 2 :: []) =
      RunResult.err (rowsOf [exUdp] [exS 1]) RenderError.layerNotFound ∧
    (rowsOf [exUdp] [exS 1]).length = 1 :=
  c3_non_ipv4_aborts [exUdp] [exS 1] exArp [exUdp] (exS 2) []
    (by decide) (by decide) (by decide)

/-- When some paired record fails to render, the loop ends in an
uncaught exception: the run aborts and the final count line is never
printed. -/
theorem runLoop_err_of_not_rendersOk (rs : List (List Nat))
    (ss : List Summary) (h : rendersOk rs ss = false) :
    ∃ rows e, runLoop rs ss = .err rows e := by
  induction rs generalizing ss with
  | nil => simp [rendersOk] at h
  | cons r rs ih =>
    cases ss with
    | nil => simp [rendersOk] at h
    | cons s ss =>
      cases hr : render_csv_row s r with
      | ok row =>
        have h2 : rendersOk rs ss = false := by
          simpa [rendersOk, hr] using h
        obtain ⟨rows, e, he⟩ := ih ss h2
        exact ⟨row :: rows, e, by simp [runLoop, hr, he]⟩
      | error e => exact ⟨[], e, by simp [runLoop, hr]⟩

/-- C4 counterexample: a capture of two records of which the second is
an unsupported ARP frame, with two summaries. The claim says the rows
written equal records minus skipped records (here 2 - 1 = 1) and that
this number equals the count printed on the final line; in fact the
run aborts at the unsupported record, the output retains the single
row written before it, and no count line is printed at all — there is
no printed count for the row total to equal. -/
theorem c4_counterexample :
    pcap2csv [exUdp, exArp] [exS 1, exS 2] =
      RunResult.err ["1|0.000|DNS(UDP)|query|10.0.0.1:53|10.0.0.2:68|64|abcd"]
        RenderError.layerNotFound ∧
    (pcap2csv [exUdp, exArp] [exS 1, exS 2]).printedCount = none := by
  exact ⟨rfl, rfl⟩

/-- C4 amended: the code never skips a record, so the claimed
rows-equals-records-minus-skipped accounting only ever holds with zero
skipped records: when every record decodes and the provider supplies
at least one summary per record, the run completes with exactly one
row per record and the printed count equals the number of rows;
whenever any paired record fails to decode, the run aborts instead of
skipping and no count line is printed at all. -/
theorem c4_rows_printed_no_skip (records : List (List Nat))
    (summaries : List Summary)
    (hlen : records.length ≤ summaries.length) :
    (rendersOk records summaries = true →
      pcap2csv records summaries =
        RunResult.ok (rowsOf records summaries) records.length ∧
      (rowsOf records summaries).length = records.length ∧
      finalLine records.length =
        toString records.length ++ " packets read") ∧
    (rendersOk records summaries = false →
      (pcap2csv records summaries).printedCount = none) := by
  constructor
  · intro hok
    have hmin : min records.length summaries.length = records.length :=
      Nat.min_eq_left hlen
    refine ⟨?_, ?_, rfl⟩
    · rw [pcap2csv, runLoop_ok_of_rendersOk records summaries hok, hmin]
    · rw [rowsOf_length records summaries hok, hmin]
  · intro hbad
    obtain ⟨rows, e, he⟩ := runLoop_err_of_not_rendersOk records summaries hbad
    rw [pcap2csv, he]
    rfl

/-- C4 witness for the amended statement, at the capture with the
unsupported second record: rendering fails there, so the run prints no
count. -/
theorem c4_rows_printed_no_skip_witness :
    (rendersOk [exUdp, exArp] [exS 1, exS 2] = true →
      pcap2csv [exUdp, exArp] [exS 1, exS 2] =
        RunResult.ok (rowsOf [exUdp, exArp] [exS 1, exS 2]) 2 ∧
      (rowsOf [exUdp, exArp] [exS 1, exS 2]).length = 2 ∧
      finalLine 2 = toString 2 ++ " packets read") ∧
    (rendersOk [exUdp, exArp] [exS 1, exS 2] = false →
      (pcap2csv [exUdp, exArp] [exS 1, exS 2]).printedCount = none) :=
  c4_rows_printed_no_skip [exUdp, exArp] [exS 1, exS 2] (by decide)

/-- C5: K well-formed UDP/TCP records with exactly K summaries whose
sequence numbers run 1..K (as the pyshark provider supplies them in
capture order) produce exactly K rows, and the frame-number field
leading row i is the number i+1: consecutive from 1. -/
theorem c5_k_rows_increasing_frames (records : List (List Nat))
    (summaries : List Summary)
    (hlen : summaries.length = records.length)
    (hok : rendersOk records summaries = true)
    (hno : ∀ i (h : i < summaries.length),
      (summaries.get ⟨i, h⟩).no = i + 1) :
    pcap2csv records summaries =
      RunResult.ok (rowsOf records summaries) records.length ∧
    (rowsOf records summaries).length = records.length ∧
    ∀ i, i < records.length →
      ∃ t, (rowsOf records summaries)[i]? =
        some (toString (i + 1) ++ "|" ++ t) := by
  have hle : records.length ≤ summaries.length := Nat.le_of_eq hlen.symm
  have hmin : min records.length summaries.length = records.length :=
    Nat.min_eq_left hle
  refine ⟨?_, ?_, ?_⟩
  · rw [pcap2csv, runLoop_ok_of_rendersOk records summaries hok, hmin]
  · rw [rowsOf_length records summaries hok, hmin]
  · intro i hi
    have hno0 : ∀ j (hj : j < summaries.length),
        (summaries.get ⟨j, hj⟩).no = 0 + j + 1 := by
      intro j hj
      rw [hno j hj]
      omega
    have h0 := rowsOf_frame_field 0 records summaries hok hle hno0 i hi
    simpa using h0

/-- C5 witness: two records numbered 1 and 2. -/
theorem c5_k_rows_increasing_frames_witness :
    pcap2csv [exUdp, exTcp] [exS 1, exS 2] =
      RunResult.ok (rowsOf [exUdp, exTcp] [exS 1, exS 2]) 2 ∧
    (rowsOf [exUdp, exTcp] [exS 1, exS 2]).length = 2 ∧
    ∀ i, i < ([exUdp, exTcp] : List (List Nat)).length →
      ∃ t, (rowsOf [exUdp, exTcp] [exS 1, exS 2])[i]? =
        some (toString (i + 1) ++ "|" ++ t) :=
  c5_k_rows_increasing_frames [exUdp, exTcp] [exS 1, exS 2]
    (by decide) (by decide) (by decide)

/-- C6 counterexample: the claim says the eleven listed fields are all
separated by the vertical bar. For a concrete UDP record the rendered
row joins the protocol label and the transport kind with parentheses
and the addresses and ports with colons, so it differs from the
bar-join of the eleven fields. -/
theorem c6_counterexample :
    render_csv_row (exS 1) exUdp =
      Except.ok "1|0.000|DNS(UDP)|query|10.0.0.1:53|10.0.0.2:68|64|abcd" ∧
    "1|0.000|DNS(UDP)|query|10.0.0.1:53|10.0.0.2:68|64|abcd" ≠
      String.intercalate "|"
        [toString (exS 1).no, (exS 1).time, (exS 1).protocol, "UDP",
         (exS 1).info, (exS 1).source, toString 53, (exS 1).destination,
         toString 68, (exS 1).length, hexOfBytes [171, 205]] := by
  exact ⟨rfl, by decide⟩

/-- C6 amended: every emitted row carries the eleven values in the
claimed fixed order, but as eight bar-separated columns: the protocol
label and transport kind share a column as label(kind), and each
address shares a column with its port joined by a colon; the payload
column is the lower-case hexadecimal encoding of the payload bytes. -/
theorem c6_row_format (s : Summary) (pkt : List Nat) (row : String)
    (h : render_csv_row s pkt = .ok row) :
    ∃ (kind : String) (sport dport : Nat) (payload : List Nat),
      (kind = "UDP" ∨ kind = "TCP") ∧
      row = String.intercalate "|"
        [toString s.no, s.time, s.protocol ++ "(" ++ kind ++ ")", s.info,
         s.source ++ ":" ++ toString sport,
         s.destination ++ ":" ++ toString dport, s.length,
         hexOfBytes payload] ∧
      ∀ c ∈ (hexOfBytes payload).data, isLowerHexDigit c = true := by
  obtain ⟨kind, sport, dport, payload, hk, hrow⟩ := render_ok_cases s pkt row h
  refine ⟨kind, sport, dport, payload, hk, ?_, hexOfBytes_lower payload⟩
  rw [hrow, formatRow_intercalate]

/-- C6 witness for the amended statement, on a concrete UDP record. -/
theorem c6_row_format_witness :
    ∃ (kind : String) (sport dport : Nat) (payload : List Nat),
      (kind = "UDP" ∨ kind = "TCP") ∧
      "1|0.000|DNS(UDP)|query|10.0.0.1:53|10.0.0.2:68|64|abcd" =
        String.intercalate "|"
          [toString (exS 1).no, (exS 1).time,
           (exS 1).protocol ++ "(" ++ kind ++ ")", (exS 1).info,
           (exS 1).source ++ ":" ++ toString sport,
           (exS 1).destination ++ ":" ++ toString dport, (exS 1).length,
           hexOfBytes payload] ∧
      ∀ c ∈ (hexOfBytes payload).data, isLowerHexDigit c = true :=
  c6_row_format (exS 1) exUdp
    "1|0.000|DNS(UDP)|query|10.0.0.1:53|10.0.0.2:68|64|abcd" rfl

/-- C7: for a TCP record whose data-offset nibble d exceeds 5 (header
longer than 20 bytes, options present), the payload of the emitted row
is the frame suffix starting after the Ethernet header, the ihl-sized
IPv4 header and all d*4 bytes of the TCP header: the payload offset is
computed from the data-offset field, so no TCP option byte is ever part
of the payload. -/
theorem c7_tcp_dataofs_payload (s : Summary) (pkt : List Nat)
    (ihl d : Nat)
    (hihl : pkt.getD 14 0 % 16 = ihl)
    (hd : pkt.getD (14 + ihl * 4 + 12) 0 % 256 / 16 = d)
    (_hd5 : 5 < d)
    (hlen : 34 ≤ pkt.length)
    (he1 : pkt.getD 12 0 = 8) (he2 : pkt.getD 13 0 = 0)
    (hproto : pkt.getD 23 0 = 6)
    (hseg : 20 ≤ pkt.length - (14 + ihl * 4)) :
    render_csv_row s pkt = Except.ok (formatRow s "TCP"
      (pkt.getD (14 + ihl * 4) 0 * 256 + pkt.getD (14 + ihl * 4 + 1) 0)
      (pkt.getD (14 + ihl * 4 + 2) 0 * 256 + pkt.getD (14 + ihl * 4 + 3) 0)
      (pkt.drop (14 + ihl * 4 + d * 4))) := by
  have hety : etherType pkt = 2048 := by
    rw [etherType, he1, he2]
  have hip : etherExtractIP pkt = some (pkt.drop 14) := by
    rw [etherExtractIP, if_pos]
    exact ⟨hlen, hety⟩
  have h0 : ipIhl (pkt.drop 14) = ihl := by
    rw [ipIhl, getD_drop]
    simpa using hihl
  have hsg : ipSegment (pkt.drop 14) = pkt.drop (14 + ihl * 4) := by
    rw [ipSegment, h0, List.drop_drop]
  have hp : ipProto (pkt.drop 14) = 6 := by
    rw [ipProto, getD_drop]
    simpa using hproto
  have hlseg : 20 ≤ (ipSegment (pkt.drop 14)).length := by
    rw [hsg, List.length_drop]
    exact hseg
  have hdo : tcpDataOfs (ipSegment (pkt.drop 14)) = d := by
    rw [hsg, tcpDataOfs, getD_drop]
    exact hd
  have hpay : tcpPayload (ipSegment (pkt.drop 14)) =
      pkt.drop (14 + ihl * 4 + d * 4) := by
    rw [tcpPayload, hdo, hsg, List.drop_drop]
  have hsport : portOf (ipSegment (pkt.drop 14)) 0 =
      pkt.getD (14 + ihl * 4) 0 * 256 + pkt.getD (14 + ihl * 4 + 1) 0 := by
    rw [portOf, hsg, getD_drop, getD_drop]
    norm_num
  have hdport : portOf (ipSegment (pkt.drop 14)) 2 =
      pkt.getD (14 + ihl * 4 + 2) 0 * 256 +
        pkt.getD (14 + ihl * 4 + 3) 0 := by
    rw [portOf, hsg, getD_drop, getD_drop]
  simp only [render_csv_row, hip, hp]
  rw [if_neg (by norm_num : ¬(6 : Nat) = 17), if_pos trivial, if_pos hlseg,
    hsport, hdport, hpay]

/-- C7 witness: a concrete TCP frame with data offset 6 (four option
bytes); the payload the row carries is the two bytes after the options,
ports 80 and 443. -/
theorem c7_tcp_dataofs_payload_witness :
    render_csv_row (exS 1) exTcp =
      Except.ok (formatRow (exS 1) "TCP" 80 443 [17, 34]) :=
  c7_tcp_dataofs_payload (exS 1) exTcp 5 6 (by decide) (by decide)
    (by decide) (by decide) (by decide) (by decide) (by decide) (by decide)

/-- C8: when the input pcap path does not exist or the output csv path
already exists, `main` takes one of the two pre-flight exits (lines
145-154): the process ends with the non-zero status of sys.exit(-1),
`pcap2csv` is never called, and the output file is never opened, so a
pre-existing output file is never modified. -/
theorem c8_preflight_failure (fs : FS) (records : List (List Nat))
    (summaries : List Summary)
    (h : fs.inputExists = false ∨ fs.outputExists = true) :
    main fs records summaries = MainOutcome.earlyExit ∧
    mainOpensOutput fs = false := by
  rcases h with h | h
  · constructor
    · simp [main, h]
    · simp [mainOpensOutput, h]
  · cases hin : fs.inputExists
    · constructor
      · simp [main, hin]
      · simp [mainOpensOutput, hin]
    · constructor
      · simp [main, hin, h]
      · simp [mainOpensOutput, h]

/-- C8 witness: the output file already exists. -/
theorem c8_preflight_failure_witness :
    main ⟨true, true⟩ [exUdp] [exS 1] = MainOutcome.earlyExit ∧
    mainOpensOutput ⟨true, true⟩ = false :=
  c8_preflight_failure ⟨true, true⟩ [exUdp] [exS 1] (Or.inr rfl)

/-- C9: when the provider over-produces, the surplus summaries after
the capture records end are never consumed — the run result is the
same as with the exactly-matching prefix — and the run completes
normally with one row per capture record. -/
theorem c9_surplus_ignored (records : List (List Nat))
    (summaries extra : List Summary)
    (hlen : records.length ≤ summaries.length)
    (hok : rendersOk records summaries = true) :
    pcap2csv records (summaries ++ extra) = pcap2csv records summaries ∧
    pcap2csv records (summaries ++ extra) =
      RunResult.ok (rowsOf records summaries) records.length ∧
    (rowsOf records summaries).length = records.length := by
  have hmin : min records.length summaries.length = records.length :=
    Nat.min_eq_left hlen
  have hsame : pcap2csv records (summaries ++ extra) =
      pcap2csv records summaries :=
    runLoop_append_extra records summaries extra hlen
  refine ⟨hsame, ?_, ?_⟩
  · rw [hsame, pcap2csv, runLoop_ok_of_rendersOk records summaries hok, hmin]
  · rw [rowsOf_length records summaries hok, hmin]

/-- C9 witness: one record, one matching summary, two surplus
summaries. -/
theorem c9_surplus_ignored_witness :
    pcap2csv [exUdp] ([exS 1] ++ [exS 2, exS 3]) =
      pcap2csv [exUdp] [exS 1] ∧
    pcap2csv [exUdp] ([exS 1] ++ [exS 2, exS 3]) =
      RunResult.ok (rowsOf [exUdp] [exS 1]) 1 ∧
    (rowsOf [exUdp] [exS 1]).length = 1 :=
  c9_surplus_ignored [exUdp] [exS 1] [exS 2, exS 3] (by decide) (by decide)

/-- C10: for a capture with zero records (and whatever the provider
yields), when the pre-flight checks pass `main` reaches `pcap2csv`,
which opens — and so creates — the output file, writes zero rows,
prints the final line 0 packets read, and returns normally (exit
status 0): an empty capture is not an error. -/
theorem c10_empty_capture (fs : FS) (summaries : List Summary)
    (h1 : fs.inputExists = true) (h2 : fs.outputExists = false) :
    main fs [] summaries = MainOutcome.completed [] 0 ∧
    mainOpensOutput fs = true ∧
    finalLine 0 = "0 packets read" := by
  refine ⟨?_, ?_, rfl⟩
  · simp [main, h1, h2, pcap2csv, runLoop]
  · simp [mainOpensOutput, h1, h2]

/-- C10 witness: existing input, fresh output, empty record list. -/
theorem c10_empty_capture_witness :
    main ⟨true, false⟩ [] [exS 1] = MainOutcome.completed [] 0 ∧
    mainOpensOutput ⟨true, false⟩ = true ∧
    finalLine 0 = "0 packets read" :=
  c10_empty_capture ⟨true, false⟩ [exS 1] rfl rfl

end Pcap2Csv
